import Mathlib

/-!
Verification of the Solar Energy Analyzer calculation core (src/app.py).

The calculation core is a pure numeric transform: module-level code in
`src/app.py` (lines 48-52 and 110-153) that maps a location irradiation
profile and system parameters to yield results.  We embed it shallowly
over the rationals: every Python float arithmetic step becomes the exact
same arithmetic over `ℚ`, and the module-level calculation section is
packaged as the pure function `computeYield` the spec describes.
-/

namespace Solar

/-- A location profile: latitude in degrees and twelve monthly global
horizontal irradiation values (kWh/m² per month, January first).
Embeds the entries of `SOLAR_LOCATIONS` in src/app.py (lines 25-46). -/
structure LocationProfile where
  lat : ℚ
  monthly_ghi : Fin 12 → ℚ

/-- The four options of the orientation selectbox in src/app.py
(lines 92-100): a closed enum. -/
inductive Orientation where
  | south
  | south_east_west
  | east_west
  | flat
deriving DecidableEq, Repr

/-- System parameters read from the sidebar inputs in src/app.py
(lines 67-108). -/
structure SystemParameters where
  system_size_kw : ℚ
  panel_efficiency : ℚ
  tilt_angle : ℚ
  orientation : Orientation
  system_losses_pct : ℚ

/-- Embeds `get_annual_and_daily_ghi` (src/app.py lines 48-52):
annual GHI is the sum of the 12 monthly values, daily GHI is
annual / 365. -/
def get_annual_and_daily_ghi (p : LocationProfile) : ℚ × ℚ :=
  let annual_ghi := ∑ i, p.monthly_ghi i
  let daily_ghi := annual_ghi / 365
  (annual_ghi, daily_ghi)

/-- Embeds the orientation-factor dispatch (src/app.py lines 114-121):
South → 1.0, South-East/South-West → 0.95, East/West → 0.90,
Flat/Horizontal → 0.88. -/
def orientation_factor : Orientation → ℚ
  | .south => 1
  | .south_east_west => 95 / 100
  | .east_west => 90 / 100
  | .flat => 88 / 100

/-- Embeds the tilt-factor computation (src/app.py lines 123-130):
piecewise constant in `tilt_diff = |tilt_angle - lat|`. -/
def tilt_factor (tilt_angle lat : ℚ) : ℚ :=
  let tilt_diff := |tilt_angle - lat|
  if tilt_diff ≤ 10 then 1
  else if tilt_diff ≤ 20 then 96 / 100
  else 90 / 100

/-- Embeds the monthly-fractions computation (src/app.py lines 146-151):
each month's share of annual GHI, with a uniform 1/12 fallback guarded
by `annual_ghi_tilt > 0`. -/
def monthly_fractions (p : LocationProfile) (s : SystemParameters) : Fin 12 → ℚ :=
  let annual_ghi := ∑ i, p.monthly_ghi i
  let annual_ghi_tilt :=
    annual_ghi * orientation_factor s.orientation * tilt_factor s.tilt_angle p.lat
  if annual_ghi_tilt > 0 then
    fun i => p.monthly_ghi i / annual_ghi
  else
    fun _ => 1 / 12

/-- The results of one run of the calculation section
(src/app.py lines 110-153). -/
structure YieldResult where
  ghi_daily : ℚ
  daily_irradiation_tilt : ℚ
  specific_yield : ℚ
  annual_energy_kwh : ℚ
  capacity_factor : ℚ
  monthly_energies : Fin 12 → ℚ
deriving DecidableEq

/-- Embeds the calculation section of src/app.py (lines 110-153) as the
pure function the spec names `computeYield`: daily GHI adjusted by
orientation and tilt factors, performance ratio from the losses slider,
specific yield, annual energy, capacity factor and the monthly energy
distribution. -/
def computeYield (p : LocationProfile) (s : SystemParameters) : YieldResult :=
  let ghi_daily := (get_annual_and_daily_ghi p).2
  let daily_irradiation_tilt :=
    ghi_daily * orientation_factor s.orientation * tilt_factor s.tilt_angle p.lat
  let pr := 1 - s.system_losses_pct / 100
  let specific_yield := daily_irradiation_tilt * 365 * pr
  let annual_energy_kwh := specific_yield * s.system_size_kw
  let capacity_factor := annual_energy_kwh / (s.system_size_kw * 8760)
  { ghi_daily := ghi_daily
    daily_irradiation_tilt := daily_irradiation_tilt
    specific_yield := specific_yield
    annual_energy_kwh := annual_energy_kwh
    capacity_factor := capacity_factor
    monthly_energies := fun i => annual_energy_kwh * monthly_fractions p s i }

/-- The Kolkata profile from `SOLAR_LOCATIONS` (src/app.py lines 26-29),
used as a concrete test input. -/
def kolkata : LocationProfile :=
  { lat := 113 / 5
    monthly_ghi := ![120, 115, 140, 160, 170, 155, 150, 150, 145, 130, 110, 105] }

/-- Default sidebar parameters of src/app.py for Kolkata: size 5 kW,
efficiency 19 %, tilt `int(lat) = 22`, South orientation, 15 % losses. -/
def defaultParams : SystemParameters :=
  { system_size_kw := 5
    panel_efficiency := 19
    tilt_angle := 22
    orientation := .south
    system_losses_pct := 15 }

/-- An all-zero irradiation profile: every monthly GHI value is 0,
used as a concrete test input for the zero-irradiation fallback. -/
def zeroProfile : LocationProfile :=
  { lat := 113 / 5, monthly_ghi := fun _ => 0 }

/-- The scenario parameters of the spec's worked example: 5 kW system,
tilt 22.6° at latitude 22.6°, South orientation, 15 % losses. -/
def scenarioParams : SystemParameters :=
  { system_size_kw := 5
    panel_efficiency := 19
    tilt_angle := 113 / 5
    orientation := .south
    system_losses_pct := 15 }

/-- A profile with a uniform 150 kWh/m² per month (1800 kWh/m²/year)
at latitude 22.6°, a concrete instance of the spec's worked example. -/
def uniformProfile : LocationProfile :=
  { lat := 113 / 5, monthly_ghi := fun _ => 150 }

/-- The orientation factor of src/app.py is strictly positive for every
selectbox option. -/
lemma orientation_factor_pos (o : Orientation) : 0 < orientation_factor o := by
  cases o <;> norm_num [orientation_factor]

/-- The tilt factor of src/app.py is strictly positive for every tilt
angle and latitude. -/
lemma tilt_factor_pos (t l : ℚ) : 0 < tilt_factor t l := by
  simp only [tilt_factor]
  split_ifs <;> norm_num

/-- The twelve monthly fractions of src/app.py (lines 146-151) always sum
to 1: in the guarded branch they are shares of a positive annual GHI, and
in the fallback branch they are twelve copies of 1/12. -/
lemma sum_monthly_fractions (p : LocationProfile) (s : SystemParameters) :
    ∑ i, monthly_fractions p s i = 1 := by
  simp only [monthly_fractions]
  split_ifs with h
  · have hof := orientation_factor_pos s.orientation
    have htf := tilt_factor_pos s.tilt_angle p.lat
    have hann : (0:ℚ) < ∑ i, p.monthly_ghi i := by
      by_contra hle
      push_neg at hle
      nlinarith [mul_pos hof htf]
    rw [← Finset.sum_div, div_self (ne_of_gt hann)]
  · simp

/-- Claim C1: for every location profile with non-negative monthly
irradiation values and every system parameters, the sum of the 12 monthly
energy values produced by the calculation section equals the annual
energy exactly over the rationals, because the monthly fractions sum to 1
in both the normal and the fallback branch. -/
theorem monthly_energies_sum_eq_annual (p : LocationProfile) (s : SystemParameters)
    (_h : ∀ i, 0 ≤ p.monthly_ghi i) :
    ∑ i, (computeYield p s).monthly_energies i = (computeYield p s).annual_energy_kwh := by
  simp only [computeYield]
  rw [← Finset.mul_sum, sum_monthly_fractions, mul_one]

/-- Witness for claim C1 at the Kolkata profile and the default sidebar
parameters. -/
theorem monthly_energies_sum_eq_annual_witness :
    ∑ i, (computeYield kolkata defaultParams).monthly_energies i
      = (computeYield kolkata defaultParams).annual_energy_kwh :=
  monthly_energies_sum_eq_annual kolkata defaultParams (by decide)

/-- Claim C2: the tilt factor is the piecewise-constant function of
d = |tilt - latitude| with value 1 for d ≤ 10, 96/100 for 10 < d ≤ 20 and
90/100 for d > 20, with both bracket boundaries inclusive on the lower
bracket. -/
theorem tilt_factor_piecewise (t l : ℚ) :
    (|t - l| ≤ 10 → tilt_factor t l = 1) ∧
    (10 < |t - l| → |t - l| ≤ 20 → tilt_factor t l = 96 / 100) ∧
    (20 < |t - l| → tilt_factor t l = 90 / 100) := by
  simp only [tilt_factor]
  refine ⟨fun h1 => ?_, fun h1 h2 => ?_, fun h1 => ?_⟩ <;>
    split_ifs <;> first | rfl | linarith

/-- Witness for claim C2 at the four boundary cases d = 10, d = 10.0001,
d = 20 and d = 20.0001. -/
theorem tilt_factor_piecewise_witness :
    tilt_factor 10 0 = 1 ∧ tilt_factor (100001 / 10000) 0 = 96 / 100 ∧
    tilt_factor 20 0 = 96 / 100 ∧ tilt_factor (200001 / 10000) 0 = 90 / 100 :=
  ⟨(tilt_factor_piecewise 10 0).1
      (by rw [sub_zero, abs_of_pos (show (0:ℚ) < 10 by norm_num)]),
   (tilt_factor_piecewise (100001 / 10000) 0).2.1
      (by rw [sub_zero, abs_of_pos (show (0:ℚ) < 100001 / 10000 by norm_num)]; norm_num)
      (by rw [sub_zero, abs_of_pos (show (0:ℚ) < 100001 / 10000 by norm_num)]; norm_num),
   (tilt_factor_piecewise 20 0).2.1
      (by rw [sub_zero, abs_of_pos (show (0:ℚ) < 20 by norm_num)]; norm_num)
      (by rw [sub_zero, abs_of_pos (show (0:ℚ) < 20 by norm_num)]),
   (tilt_factor_piecewise (200001 / 10000) 0).2.2
      (by rw [sub_zero, abs_of_pos (show (0:ℚ) < 200001 / 10000 by norm_num)]; norm_num)⟩

/-- Claim C3: the orientation factor returns exactly 1, 95/100, 90/100
and 88/100 on the four members of the closed orientation enum, and every
output lies in the half-open interval (0, 1]; as a Lean function it is
pure by construction. -/
theorem orientation_factor_lookup :
    orientation_factor Orientation.south = 1 ∧
    orientation_factor Orientation.south_east_west = 95 / 100 ∧
    orientation_factor Orientation.east_west = 90 / 100 ∧
    orientation_factor Orientation.flat = 88 / 100 ∧
    ∀ o, 0 < orientation_factor o ∧ orientation_factor o ≤ 1 := by
  refine ⟨rfl, rfl, rfl, rfl, fun o => ?_⟩
  cases o <;> exact ⟨by norm_num [orientation_factor], by norm_num [orientation_factor]⟩

/-- Claim C4: for a profile whose twelve monthly irradiation values are
all zero, the calculation takes the defined fallback: every monthly
fraction is exactly 1/12, and every monthly energy is the annual energy
times 1/12; no error path exists. -/
theorem zero_profile_uniform_fractions (p : LocationProfile) (s : SystemParameters)
    (h : ∀ i, p.monthly_ghi i = 0) :
    ∀ i, monthly_fractions p s i = 1 / 12 ∧
      (computeYield p s).monthly_energies i
        = (computeYield p s).annual_energy_kwh * (1 / 12) := by
  have hsum : ∑ i, p.monthly_ghi i = 0 := Finset.sum_eq_zero fun i _ => h i
  have hfrac : monthly_fractions p s = fun _ => 1 / 12 := by
    simp only [monthly_fractions, hsum]
    simp
  intro i
  refine ⟨by rw [hfrac], ?_⟩
  simp only [computeYield, hfrac]

/-- Witness for claim C4 at the all-zero profile, first month. -/
theorem zero_profile_uniform_fractions_witness :
    monthly_fractions zeroProfile defaultParams 0 = 1 / 12 ∧
      (computeYield zeroProfile defaultParams).monthly_energies 0
        = (computeYield zeroProfile defaultParams).annual_energy_kwh * (1 / 12) :=
  zero_profile_uniform_fractions zeroProfile defaultParams (fun _ => rfl) 0

/-- Claim C5: for any profile whose monthly GHI sums to 1800 kWh/m²/year
at latitude 22.6°, with tilt 22.6° (so d = 0 and tilt factor 1), South
orientation, 15 % losses and a 5 kW system, the calculation returns
exactly daily GHI 360/73 (≈ 4.932), specific yield 1530 (≈ 1531 within
0.1 %), annual energy 7650 kWh (≈ 7657 within 0.1 %) and capacity factor
51/292 (≈ 0.1748 within 0.1 %). -/
theorem scenario_yield (p : LocationProfile)
    (hsum : ∑ i, p.monthly_ghi i = 1800) (hlat : p.lat = 113 / 5) :
    (computeYield p scenarioParams).ghi_daily = 360 / 73 ∧
    (computeYield p scenarioParams).specific_yield = 1530 ∧
    (computeYield p scenarioParams).annual_energy_kwh = 7650 ∧
    (computeYield p scenarioParams).capacity_factor = 51 / 292 ∧
    |(computeYield p scenarioParams).ghi_daily - 4932 / 1000| ≤ 4932 / 1000 / 1000 ∧
    |(computeYield p scenarioParams).specific_yield - 1531| ≤ 1531 / 1000 ∧
    |(computeYield p scenarioParams).annual_energy_kwh - 7657| ≤ 7657 / 1000 ∧
    |(computeYield p scenarioParams).capacity_factor - 1748 / 10000| ≤ 1748 / 10000 / 1000 := by
  simp only [computeYield, get_annual_and_daily_ghi, scenarioParams, hsum, hlat]
  norm_num [tilt_factor, orientation_factor, abs_le]

/-- Witness for claim C5 at the uniform 150 kWh/m²-per-month profile. -/
theorem scenario_yield_witness :
    (computeYield uniformProfile scenarioParams).ghi_daily = 360 / 73 ∧
    (computeYield uniformProfile scenarioParams).specific_yield = 1530 ∧
    (computeYield uniformProfile scenarioParams).annual_energy_kwh = 7650 ∧
    (computeYield uniformProfile scenarioParams).capacity_factor = 51 / 292 ∧
    |(computeYield uniformProfile scenarioParams).ghi_daily - 4932 / 1000|
      ≤ 4932 / 1000 / 1000 ∧
    |(computeYield uniformProfile scenarioParams).specific_yield - 1531| ≤ 1531 / 1000 ∧
    |(computeYield uniformProfile scenarioParams).annual_energy_kwh - 7657| ≤ 7657 / 1000 ∧
    |(computeYield uniformProfile scenarioParams).capacity_factor - 1748 / 10000|
      ≤ 1748 / 10000 / 1000 :=
  scenario_yield uniformProfile
    (by simp only [uniformProfile, Finset.sum_const, Finset.card_univ, Fintype.card_fin,
          nsmul_eq_mul]
        norm_num)
    rfl

/-- Claim C6: the annual-and-daily-GHI derivation returns annual GHI equal
to the sum of the 12 monthly irradiation values and daily GHI equal to
annual GHI / 365, with no error cases of its own (it is total). -/
theorem get_annual_and_daily_ghi_spec (p : LocationProfile) :
    (get_annual_and_daily_ghi p).1 = ∑ i, p.monthly_ghi i ∧
    (get_annual_and_daily_ghi p).2 = (get_annual_and_daily_ghi p).1 / 365 :=
  ⟨rfl, rfl⟩

/-- The branch condition of the monthly-fraction fallback holds exactly
when the annual GHI is positive, for every orientation: the orientation
and tilt factors are strictly positive and so never change its sign. -/
lemma annual_tilt_pos_iff (a tf : ℚ) (htf : 0 < tf) (o : Orientation) :
    0 < a * orientation_factor o * tf ↔ 0 < a := by
  rw [mul_comm a (orientation_factor o), mul_assoc,
    mul_pos_iff_of_pos_left (orientation_factor_pos o), mul_comm a tf,
    mul_pos_iff_of_pos_left htf]

/-- The monthly fractions of src/app.py do not depend on the chosen
orientation: the guard's branch choice is insensitive to the (positive)
orientation factor and neither branch mentions it. -/
lemma monthly_fractions_orientation (p : LocationProfile) (s : SystemParameters)
    (o : Orientation) :
    monthly_fractions p { s with orientation := o } = monthly_fractions p s := by
  simp only [monthly_fractions]
  rw [if_congr ((annual_tilt_pos_iff _ _ (tilt_factor_pos _ _) o).trans
    (annual_tilt_pos_iff _ _ (tilt_factor_pos _ _) s.orientation).symm) rfl rfl]

/-- Claim C7: for a fixed profile and fixed other parameters, changing the
orientation from South to Flat scales the tilted daily irradiation, the
specific yield, the annual energy, the capacity factor and every monthly
energy entry by exactly 88/100. -/
theorem flat_is_south_scaled (p : LocationProfile) (s : SystemParameters)
    (hor : s.orientation = Orientation.south) (_hk : 0 < s.system_size_kw) :
    (computeYield p { s with orientation := Orientation.flat }).daily_irradiation_tilt
      = 88 / 100 * (computeYield p s).daily_irradiation_tilt ∧
    (computeYield p { s with orientation := Orientation.flat }).specific_yield
      = 88 / 100 * (computeYield p s).specific_yield ∧
    (computeYield p { s with orientation := Orientation.flat }).annual_energy_kwh
      = 88 / 100 * (computeYield p s).annual_energy_kwh ∧
    (computeYield p { s with orientation := Orientation.flat }).capacity_factor
      = 88 / 100 * (computeYield p s).capacity_factor ∧
    ∀ i, (computeYield p { s with orientation := Orientation.flat }).monthly_energies i
      = 88 / 100 * (computeYield p s).monthly_energies i := by
  have hfrac := monthly_fractions_orientation p s Orientation.flat
  refine ⟨?_, ?_, ?_, ?_, fun i => ?_⟩ <;>
    simp only [computeYield, hfrac, hor, orientation_factor] <;> ring

/-- Witness for claim C7 at the Kolkata profile and the default sidebar
parameters. -/
theorem flat_is_south_scaled_witness :
    (computeYield kolkata
        { defaultParams with orientation := Orientation.flat }).daily_irradiation_tilt
      = 88 / 100 * (computeYield kolkata defaultParams).daily_irradiation_tilt ∧
    (computeYield kolkata
        { defaultParams with orientation := Orientation.flat }).specific_yield
      = 88 / 100 * (computeYield kolkata defaultParams).specific_yield ∧
    (computeYield kolkata
        { defaultParams with orientation := Orientation.flat }).annual_energy_kwh
      = 88 / 100 * (computeYield kolkata defaultParams).annual_energy_kwh ∧
    (computeYield kolkata
        { defaultParams with orientation := Orientation.flat }).capacity_factor
      = 88 / 100 * (computeYield kolkata defaultParams).capacity_factor ∧
    ∀ i, (computeYield kolkata
        { defaultParams with orientation := Orientation.flat }).monthly_energies i
      = 88 / 100 * (computeYield kolkata defaultParams).monthly_energies i :=
  flat_is_south_scaled kolkata defaultParams rfl (by norm_num [defaultParams])

/-- Claim C8: noninterference of the panel-efficiency input. Two runs of
the calculation that differ only in the panel-efficiency value (each
within the slider range [15, 25]) produce identical results in every
field: the field is read from the sidebar but never consumed by the
energy math. -/
theorem panel_efficiency_noninterference (p : LocationProfile) (s : SystemParameters)
    (e1 e2 : ℚ) (_h1 : 15 ≤ e1) (_h2 : e1 ≤ 25) (_h3 : 15 ≤ e2) (_h4 : e2 ≤ 25) :
    computeYield p { s with panel_efficiency := e1 }
      = computeYield p { s with panel_efficiency := e2 } := rfl

/-- Witness for claim C8 at the Kolkata profile with efficiencies 19 and
23. -/
theorem panel_efficiency_noninterference_witness :
    computeYield kolkata { defaultParams with panel_efficiency := 19 }
      = computeYield kolkata { defaultParams with panel_efficiency := 23 } :=
  panel_efficiency_noninterference kolkata defaultParams 19 23
    (by norm_num) (by norm_num) (by norm_num) (by norm_num)

/-- Claim C9: the calculation is deterministic and referentially
transparent: it is a pure function of the profile and the parameters, so
any two invocations on equal inputs return equal results in every field,
with no hidden state. -/
theorem computeYield_deterministic (p1 p2 : LocationProfile) (s1 s2 : SystemParameters)
    (hp : p1 = p2) (hs : s1 = s2) :
    computeYield p1 s1 = computeYield p2 s2 := by rw [hp, hs]

/-- Witness for claim C9 at the Kolkata profile and the default sidebar
parameters. -/
theorem computeYield_deterministic_witness :
    computeYield kolkata defaultParams = computeYield kolkata defaultParams :=
  computeYield_deterministic kolkata kolkata defaultParams defaultParams rfl rfl

/-- Claim C10: the capacity factor is independent of the system size: for
any positive size it equals specific yield / 8760, so two runs differing
only in the (positive) system size report the same capacity factor. -/
theorem capacity_factor_size_invariant (p : LocationProfile) (s : SystemParameters)
    (k1 k2 : ℚ) (h1 : 0 < k1) (h2 : 0 < k2) :
    (computeYield p { s with system_size_kw := k1 }).capacity_factor
      = (computeYield p { s with system_size_kw := k1 }).specific_yield / 8760 ∧
    (computeYield p { s with system_size_kw := k1 }).capacity_factor
      = (computeYield p { s with system_size_kw := k2 }).capacity_factor := by
  have key : ∀ sy k : ℚ, 0 < k → sy * k / (k * 8760) = sy / 8760 := by
    intro sy k hk
    rw [mul_comm sy k, mul_div_mul_left _ _ (ne_of_gt hk)]
  constructor
  · simp only [computeYield]
    exact key _ k1 h1
  · simp only [computeYield]
    rw [key _ k1 h1, key _ k2 h2]

/-- Witness for claim C10 at the Kolkata profile with sizes 5 and 10. -/
theorem capacity_factor_size_invariant_witness :
    (computeYield kolkata { defaultParams with system_size_kw := 5 }).capacity_factor
      = (computeYield kolkata { defaultParams with system_size_kw := 5 }).specific_yield / 8760 ∧
    (computeYield kolkata { defaultParams with system_size_kw := 5 }).capacity_factor
      = (computeYield kolkata { defaultParams with system_size_kw := 10 }).capacity_factor :=
  capacity_factor_size_invariant kolkata defaultParams 5 10 (by norm_num) (by norm_num)

end Solar
